import Mathlib

/-!
Shallow embedding of astro-core (src/lib.rs), a thin Rust wrapper around the
Swiss Ephemeris C library.

Modelling conventions:
- Rust f64 values are modelled as exact rationals (ℚ).  The remainder
  operator % on f64 (truncated remainder, sign of the dividend) is modelled
  by f64Rem below; fmod on finite inputs is exact, so the model is faithful
  on the mathematical values the spec speaks about.
- The external Swiss Ephemeris engine (swe_utc_to_jd, swe_calc_ut,
  swe_houses_ex) is a black box; it is modelled as a structure of oracle
  functions returning a status code, the output buffers, and the diagnostic
  buffer contents.  Diagnostic buffers are lists of c_char values (Int).
- Rust String values stored in the registry are modelled as their UTF-8 byte
  lists (List Nat), so the interior-null check of CString::new is the
  membership of byte 0.
- The process-wide EPHE_PATH : OnceLock<Mutex<String>> is modelled as an
  explicit PathState record threaded through the operations.  The poisoned
  flag models std Mutex poisoning: a panic raised while the guard is held
  (the expect in set_ephe_path fires after the guard is taken and before it
  is dropped) poisons the mutex during unwinding, and a later lock() on a
  poisoned mutex returns Err.
- A Rust panic (expect) is a fatal failure, modelled by the panicked
  constructor of SetPathResult, carrying the state left behind; recoverable
  errors are the Except error channel, as in the source.
-/

namespace AstroCore

/-- Constant SE_SUN from the ffi module (body id of the Sun). -/
def SE_SUN : Int := 0

/-- Constant SE_MOON from the ffi module (body id of the Moon). -/
def SE_MOON : Int := 1

/-- Constant SE_ASC from the ffi module (index of the ascendant in ascmc). -/
def SE_ASC : Nat := 0

/-- Constant SE_GREG_CAL from the ffi module (Gregorian calendar flag). -/
def SE_GREG_CAL : Int := 1

/-- Constant SEFLG_SWIEPH from the ffi module (built-in ephemeris source flag). -/
def SEFLG_SWIEPH : Int := 2

/-- The Placidus house system selector passed to swe_houses_ex: the character
literal P cast to c_int in the source. -/
def HSYS_PLACIDUS : Int := 80

/-- The fixed zodiac table ZODIAC_SIGNS from the source. -/
def ZODIAC_SIGNS : List String :=
  ["aries", "taurus", "gemini", "cancer", "leo", "virgo",
   "libra", "scorpio", "sagittarius", "capricorn", "aquarius", "pisces"]

/-- Truncation toward zero on ℚ, the rounding used by the remainder operator
of Rust f64 (and by float-to-int casts). -/
def qtrunc (q : ℚ) : ℤ := if 0 ≤ q then ⌊q⌋ else ⌈q⌉

/-- The Rust % operator on f64: truncated remainder, x - m * trunc (x / m).
fmod is exact on floats, so over the rationals this is the faithful model. -/
def f64Rem (x m : ℚ) : ℚ := x - m * (qtrunc (x / m) : ℚ)

/-- Embedding of sign_name_from_longitude: reduce by % 360.0, wrap negatives
forward by one turn, divide by 30, floor, cast to usize, reduce mod the table
length and index the table.  The usize cast of the nonnegative float is
Int.toNat of the floor; the in-range index makes getD total like the Rust
panic-free indexing. -/
def sign_name_from_longitude (lon : ℚ) : String :=
  let norm0 := f64Rem lon 360
  let norm := if norm0 < 0 then norm0 + 360 else norm0
  let index := (⌊norm / 30⌋).toNat % ZODIAC_SIGNS.length
  ZODIAC_SIGNS.getD index ""

/-- Diagnostic text carried by an AstroError.  Literal strings of the source
are kept verbatim; the lossy UTF-8 decoding done by String::from_utf8_lossy
(Rust std, outside this crate) is kept abstract as the byte list fed to it. -/
inductive ErrText where
  | lit (s : String)
  | lossyUtf8 (bytes : List Nat)
deriving DecidableEq, Repr

/-- The AstroError enum of the source. -/
inductive AstroError where
  | EphemerisError (msg : ErrText)
  | InvalidInput (msg : ErrText)
deriving DecidableEq, Repr

/-- Embedding of error_string: find the first NUL in the c_char buffer (or
the buffer length when there is none), reinterpret the bytes before it as u8
(c as u8 is c mod 256), and normalize an empty diagnostic to the fixed
placeholder. -/
def error_string (buf : List Int) : ErrText :=
  let nul := (buf.findIdx? (fun c => c == 0)).getD buf.length
  let bytes := (buf.take nul).map (fun c => (c % 256).toNat)
  if bytes.isEmpty then ErrText.lit "unknown Swiss Ephemeris error"
  else ErrText.lossyUtf8 bytes

/-- The BirthData record of the source (f64 fields as ℚ). -/
structure BirthData where
  year : Int
  month : Int
  day : Int
  hour : Int
  minute : Int
  second : ℚ
  lat : ℚ
  lon : ℚ
deriving DecidableEq, Repr

/-- The CoreChart record of the source. -/
structure CoreChart where
  sun_sign : String
  moon_sign : String
  asc_sign : String
deriving DecidableEq, Repr

/-- Black-box model of the external Swiss Ephemeris engine.  Each oracle
returns the status code and the buffers the C call fills: swe_utc_to_jd
fills dret (ephemeris time, universal time) and serr; swe_calc_ut fills the
six-component xx vector and serr; swe_houses_ex fills the 13-entry cusps
array and the 10-entry ascmc array. -/
structure Engine where
  utc_to_jd : Int → Int → Int → Int → Int → ℚ → Int → Int × (ℚ × ℚ) × List Int
  calc_ut : ℚ → Int → Int → Int × (Fin 6 → ℚ) × List Int
  houses_ex : ℚ → Int → ℚ → ℚ → Int → Int × (Fin 13 → ℚ) × (Fin 10 → ℚ)

/-- State of the EPHE_PATH registry: the stored path string (UTF-8 bytes)
together with the poison bit of the std Mutex wrapping it. -/
structure PathState where
  path : List Nat
  poisoned : Bool
deriving DecidableEq, Repr

/-- Outcome of set_ephe_path, which returns unit in the source but may
panic: ok carries the updated registry state, panicked carries the expect
message and the state left behind by the unwinding (the mutex is poisoned
when the panic fires while the guard is held). -/
inductive SetPathResult where
  | ok (st : PathState)
  | panicked (msg : String) (st : PathState)
deriving DecidableEq, Repr

/-- Embedding of set_ephe_path: lock the mutex (expect panics on a poisoned
lock, leaving the state unchanged), store the new path, then build the
CString (expect panics on an interior NUL byte; the store has already
happened, and the panic while the guard is held poisons the mutex). -/
def set_ephe_path (st : PathState) (path : List Nat) : SetPathResult :=
  if st.poisoned then
    SetPathResult.panicked "ephemeris path mutex poisoned" st
  else if path.contains 0 then
    SetPathResult.panicked "ephemeris path must not contain interior null bytes"
      { path := path, poisoned := true }
  else
    SetPathResult.ok { path := path, poisoned := false }

/-- Embedding of apply_ephe_path: lock the mutex (a poisoned lock is mapped
to the InvalidInput error), build the CString from the stored path (an
interior NUL is mapped to the InvalidInput error), and push the path to the
engine via swe_set_ephe_path.  The pushed path is returned so the engine
call is visible to the pipeline model (the source returns unit). -/
def apply_ephe_path (st : PathState) : Except AstroError (List Nat) :=
  if st.poisoned then
    Except.error (AstroError.InvalidInput (ErrText.lit "ephemeris path lock poisoned"))
  else if st.path.contains 0 then
    Except.error (AstroError.InvalidInput (ErrText.lit "ephemeris path contains null byte"))
  else
    Except.ok st.path

/-- Embedding of julian_day_ut: call swe_utc_to_jd with the civil UTC fields
and the Gregorian flag; a negative status yields the EphemerisError built
from the serr buffer, otherwise the result is dret[1], the Universal Time
element. -/
def julian_day_ut (eng : Engine) (birth : BirthData) : Except AstroError ℚ :=
  let r := eng.utc_to_jd birth.year birth.month birth.day birth.hour birth.minute
    birth.second SE_GREG_CAL
  if r.1 < 0 then
    Except.error (AstroError.EphemerisError (error_string r.2.2))
  else
    Except.ok r.2.1.2

/-- Embedding of body_longitude: call swe_calc_ut with the fixed SEFLG_SWIEPH
flag; a negative status yields the EphemerisError built from serr, otherwise
the result is xx[0], the ecliptic longitude. -/
def body_longitude (eng : Engine) (tjd_ut : ℚ) (ipl : Int) : Except AstroError ℚ :=
  let r := eng.calc_ut tjd_ut ipl SEFLG_SWIEPH
  if r.1 < 0 then
    Except.error (AstroError.EphemerisError (error_string r.2.2))
  else
    Except.ok (r.2.1 0)

/-- Embedding of ascendant_longitude: call swe_houses_ex with the Placidus
selector; a negative status yields the EphemerisError with the fixed text,
otherwise the result is ascmc[SE_ASC], discarding the cusps array. -/
def ascendant_longitude (eng : Engine) (tjd_ut lat lon : ℚ) : Except AstroError ℚ :=
  let r := eng.houses_ex tjd_ut SEFLG_SWIEPH lat lon HSYS_PLACIDUS
  if r.1 < 0 then
    Except.error (AstroError.EphemerisError (ErrText.lit "failed to compute ascendant"))
  else
    Except.ok (r.2.2 ⟨SE_ASC, by decide⟩)

/-- Embedding of calculate_core_chart: apply the path, convert the time,
query Sun, Moon, ascendant, then map the three longitudes to signs; each ?
short-circuits with the error of the failing step. -/
def calculate_core_chart (eng : Engine) (st : PathState) (birth : BirthData) :
    Except AstroError CoreChart :=
  match apply_ephe_path st with
  | Except.error e => Except.error e
  | Except.ok _ =>
    match julian_day_ut eng birth with
    | Except.error e => Except.error e
    | Except.ok tjd_ut =>
      match body_longitude eng tjd_ut SE_SUN with
      | Except.error e => Except.error e
      | Except.ok sun_long =>
        match body_longitude eng tjd_ut SE_MOON with
        | Except.error e => Except.error e
        | Except.ok moon_long =>
          match ascendant_longitude eng tjd_ut birth.lat birth.lon with
          | Except.error e => Except.error e
          | Except.ok asc_long =>
            Except.ok
              { sun_sign := sign_name_from_longitude sun_long
                moon_sign := sign_name_from_longitude moon_long
                asc_sign := sign_name_from_longitude asc_long }

/-- Tag of one call into the external engine, in the order the pipeline
issues them. -/
inductive EngineCall where
  | setEphePath (path : List Nat)
  | utcToJd
  | calcUt (ipl : Int)
  | housesEx
deriving DecidableEq, Repr

/-- Instrumented pipeline: same computation as calculate_core_chart, also
returning the list of engine calls actually issued, in order.  The engine
call of a step appears in the trace even when that step then fails (the C
call happens before the status check), and no later call appears. -/
def calculate_core_chart_trace (eng : Engine) (st : PathState) (birth : BirthData) :
    Except AstroError CoreChart × List EngineCall :=
  match apply_ephe_path st with
  | Except.error e => (Except.error e, [])
  | Except.ok p =>
    let tr1 := [EngineCall.setEphePath p]
    match julian_day_ut eng birth with
    | Except.error e => (Except.error e, tr1 ++ [EngineCall.utcToJd])
    | Except.ok tjd_ut =>
      let tr2 := tr1 ++ [EngineCall.utcToJd]
      match body_longitude eng tjd_ut SE_SUN with
      | Except.error e => (Except.error e, tr2 ++ [EngineCall.calcUt SE_SUN])
      | Except.ok sun_long =>
        let tr3 := tr2 ++ [EngineCall.calcUt SE_SUN]
        match body_longitude eng tjd_ut SE_MOON with
        | Except.error e => (Except.error e, tr3 ++ [EngineCall.calcUt SE_MOON])
        | Except.ok moon_long =>
          let tr4 := tr3 ++ [EngineCall.calcUt SE_MOON]
          match ascendant_longitude eng tjd_ut birth.lat birth.lon with
          | Except.error e => (Except.error e, tr4 ++ [EngineCall.housesEx])
          | Except.ok asc_long =>
            (Except.ok
              { sun_sign := sign_name_from_longitude sun_long
                moon_sign := sign_name_from_longitude moon_long
                asc_sign := sign_name_from_longitude asc_long },
             tr4 ++ [EngineCall.housesEx])

/-- Concrete engine whose calls all succeed with zeroed outputs, used to
exercise the pipeline on a closed input. -/
def engOk : Engine where
  utc_to_jd := fun _ _ _ _ _ _ _ => (0, (0, 0), [])
  calc_ut := fun _ _ _ => (0, fun _ => 0, [])
  houses_ex := fun _ _ _ _ _ => (0, fun _ => 0, fun _ => 0)

/-- Concrete birth data (the smoke-test input of the source tests). -/
def birth0 : BirthData :=
  { year := 1990, month := 1, day := 1, hour := 0, minute := 0, second := 0,
    lat := 0, lon := 0 }

/-- Concrete healthy registry state with an empty stored path. -/
def st0 : PathState := { path := [], poisoned := false }

/-- Concrete engine whose calls all fail with status -1 and an empty
diagnostic buffer, used to exercise the error paths on a closed input. -/
def engFail : Engine where
  utc_to_jd := fun _ _ _ _ _ _ _ => (-1, (0, 0), [])
  calc_ut := fun _ _ _ => (-1, fun _ => 0, [])
  houses_ex := fun _ _ _ _ _ => (-1, fun _ => 0, fun _ => 0)

/-- The normalization step of sign_name_from_longitude (truncated remainder
followed by the negative fixup) agrees with the mathematical floor-mod
reduction into the interval from 0 (inclusive) to 360 (exclusive). -/
lemma norm360_eq (lon : ℚ) :
    (if f64Rem lon 360 < 0 then f64Rem lon 360 + 360 else f64Rem lon 360)
      = lon - 360 * ⌊lon / 360⌋ := by
  have h360 : (360 : ℚ) ≠ 0 := by norm_num
  have hlon : lon / 360 * 360 = lon := div_mul_cancel₀ lon h360
  rcases le_or_lt 0 (lon / 360) with hq0 | hq0
  · have ht : qtrunc (lon / 360) = ⌊lon / 360⌋ := if_pos hq0
    have hm : f64Rem lon 360 = lon - 360 * (⌊lon / 360⌋ : ℚ) := by
      simp only [f64Rem, ht]
    have hge : 0 ≤ lon - 360 * ((⌊lon / 360⌋ : ℤ) : ℚ) := by
      have hfl := Int.floor_le (lon / 360)
      linarith
    rw [hm, if_neg (not_lt.mpr hge)]
  · have ht : qtrunc (lon / 360) = ⌈lon / 360⌉ := if_neg (not_le.mpr hq0)
    rcases eq_or_ne ((⌊lon / 360⌋ : ℚ)) (lon / 360) with hint | hint
    · have hceq : (⌈lon / 360⌉ : ℤ) = ⌊lon / 360⌋ := by
        calc ⌈lon / 360⌉ = ⌈((⌊lon / 360⌋ : ℤ) : ℚ)⌉ := by rw [hint]
          _ = ⌊lon / 360⌋ := Int.ceil_intCast _
      have hm : f64Rem lon 360 = 0 := by
        simp only [f64Rem, ht, hceq]
        linarith
      rw [hm, if_neg (lt_irrefl (0 : ℚ))]
      linarith
    · have hlt : ((⌊lon / 360⌋ : ℤ) : ℚ) < lon / 360 :=
        lt_of_le_of_ne (Int.floor_le _) hint
    -- the non-integer case: the ceiling is the floor plus one
      have hceil : (⌈lon / 360⌉ : ℤ) = ⌊lon / 360⌋ + 1 := by
        have h1 : ⌈lon / 360⌉ ≤ ⌊lon / 360⌋ + 1 := by
          apply Int.ceil_le.mpr
          push_cast
          exact le_of_lt (Int.lt_floor_add_one _)
        have h2 : ⌊lon / 360⌋ < ⌈lon / 360⌉ := by
          have hc := Int.le_ceil (lon / 360)
          exact_mod_cast lt_of_lt_of_le hlt hc
        omega
      have hm : f64Rem lon 360 = lon - 360 * ((⌊lon / 360⌋ : ℚ) + 1) := by
        simp only [f64Rem, ht, hceil]
        push_cast
        ring
      have hneg : lon - 360 * ((⌊lon / 360⌋ : ℚ) + 1) < 0 := by
        have hfu := Int.lt_floor_add_one (lon / 360)
        linarith
      rw [hm, if_pos hneg]
      ring

/-- Unfolding of sign_name_from_longitude through the floor-mod form of the
normalization step. -/
lemma sign_name_eq_floorMod (lon : ℚ) :
    sign_name_from_longitude lon
      = ZODIAC_SIGNS.getD ((⌊(lon - 360 * ⌊lon / 360⌋) / 30⌋).toNat % 12) "" := by
  have h := norm360_eq lon
  show ZODIAC_SIGNS.getD
      ((⌊(if f64Rem lon 360 < 0 then f64Rem lon 360 + 360 else f64Rem lon 360) / 30⌋).toNat
        % ZODIAC_SIGNS.length) "" = _
  rw [h]
  rfl

/-- Bounds of the floor-mod reduction. -/
lemma floorMod_bounds (lon : ℚ) :
    0 ≤ lon - 360 * ⌊lon / 360⌋ ∧ lon - 360 * ⌊lon / 360⌋ < 360 := by
  have h360 : (360 : ℚ) ≠ 0 := by norm_num
  have hlon : lon / 360 * 360 = lon := div_mul_cancel₀ lon h360
  have hfl := Int.floor_le (lon / 360)
  have hfu := Int.lt_floor_add_one (lon / 360)
  constructor <;> linarith

/-- A getD at an index below the length is a member of the list. -/
lemma getD_mem_of_lt (l : List String) (i : Nat) (d : String) (h : i < l.length) :
    l.getD i d ∈ l := by
  rw [List.getD_eq_getElem?_getD, List.getElem?_eq_getElem h]
  exact List.getElem_mem h

/-- The sign mapper always lands in the zodiac table. -/
lemma sign_name_mem (lon : ℚ) : sign_name_from_longitude lon ∈ ZODIAC_SIGNS := by
  rw [sign_name_eq_floorMod]
  refine getD_mem_of_lt _ _ _ ?_
  have h12 : ((⌊(lon - 360 * ⌊lon / 360⌋) / 30⌋).toNat % 12) < 12 :=
    Nat.mod_lt _ (by norm_num)
  simpa [ZODIAC_SIGNS] using h12

/-- On the interval from 0 to 360 the sign mapper is the plain table lookup
at floor of the longitude over 30. -/
lemma sign_name_in_range (L : ℚ) (h0 : 0 ≤ L) (h1 : L < 360) :
    sign_name_from_longitude L = ZODIAC_SIGNS.getD (⌊L / 30⌋).toNat "" := by
  rw [sign_name_eq_floorMod]
  have hfl0 : ⌊L / 360⌋ = 0 := by
    rw [Int.floor_eq_zero_iff]
    refine Set.mem_Ico.mpr ⟨div_nonneg h0 (by norm_num), ?_⟩
    rw [div_lt_one (by norm_num)]
    exact h1
  rw [hfl0]
  simp only [Int.cast_zero, mul_zero, sub_zero]
  have hidx : ⌊L / 30⌋ < 12 := by
    apply Int.floor_lt.mpr
    rw [div_lt_iff₀ (by norm_num : (0:ℚ) < 30)]
    push_cast
    linarith
  have hidx0 : 0 ≤ ⌊L / 30⌋ := Int.floor_nonneg.mpr (div_nonneg h0 (by norm_num))
  have hlt : (⌊L / 30⌋).toNat < 12 := by omega
  rw [Nat.mod_eq_of_lt hlt]

/-- The floor-mod reduction is invariant under shifting by whole turns. -/
lemma floorMod_add_int (L : ℚ) (k : ℤ) :
    (L + 360 * k) - 360 * ⌊(L + 360 * k) / 360⌋ = L - 360 * ⌊L / 360⌋ := by
  have hdiv : (L + 360 * (k : ℚ)) / 360 = L / 360 + (k : ℚ) := by
    rw [add_div]
    congr 1
    rw [mul_comm]
    exact mul_div_cancel_right₀ (k : ℚ) (by norm_num)
  rw [hdiv, Int.floor_add_int]
  push_cast
  ring

/-- Concrete boundary value: longitude 0 maps to aries. -/
lemma sign_name_zero : sign_name_from_longitude 0 = "aries" := by
  rw [sign_name_in_range 0 (by norm_num) (by norm_num)]
  have h : ((0 : ℚ) / 30) = 0 := by norm_num
  rw [h, Int.floor_zero]
  rfl

/-- Concrete boundary value: longitude 29.999 maps to aries. -/
lemma sign_name_29999 : sign_name_from_longitude 29.999 = "aries" := by
  rw [sign_name_in_range 29.999 (by norm_num) (by norm_num)]
  have h : ⌊(29.999 : ℚ) / 30⌋ = 0 := by
    rw [Int.floor_eq_zero_iff]
    exact Set.mem_Ico.mpr ⟨by norm_num, by norm_num⟩
  rw [h]
  rfl

/-- Concrete boundary value: longitude 30 maps to taurus. -/
lemma sign_name_30 : sign_name_from_longitude 30 = "taurus" := by
  rw [sign_name_in_range 30 (by norm_num) (by norm_num)]
  have h : ((30 : ℚ) / 30) = 1 := by norm_num
  rw [h, Int.floor_one]
  rfl

/-- Concrete boundary value: longitude 359.999 maps to pisces. -/
lemma sign_name_359999 : sign_name_from_longitude 359.999 = "pisces" := by
  rw [sign_name_in_range 359.999 (by norm_num) (by norm_num)]
  have h : ⌊(359.999 : ℚ) / 30⌋ = 11 := by
    rw [Int.floor_eq_iff]
    constructor <;> norm_num
  rw [h]
  rfl

/-- Concrete value: longitude 350 maps to pisces. -/
lemma sign_name_350 : sign_name_from_longitude 350 = "pisces" := by
  rw [sign_name_in_range 350 (by norm_num) (by norm_num)]
  have h : ⌊(350 : ℚ) / 30⌋ = 11 := by
    rw [Int.floor_eq_iff]
    constructor <;> norm_num
  rw [h]
  rfl

/-- The prefix kept by the first-NUL scan of error_string is the longest
prefix free of NUL bytes. -/
lemma take_findIdx_eq_takeWhile (p : Int → Bool) :
    ∀ l : List Int,
      l.take ((List.findIdx? p l).getD l.length)
        = l.takeWhile (fun c => !(p c))
  | [] => rfl
  | c :: t => by
    by_cases hp : p c
    · simp [List.findIdx?_cons, hp, List.takeWhile_cons]
    · have hrec := take_findIdx_eq_takeWhile p t
      cases hf : List.findIdx? p t with
      | none =>
        rw [hf] at hrec
        simp [List.findIdx?_cons, hp, List.findIdx?_succ, hf,
          List.take_succ_cons, List.takeWhile_cons]
        simpa using hrec
      | some n =>
        rw [hf] at hrec
        simp [List.findIdx?_cons, hp, List.findIdx?_succ, hf,
          List.take_succ_cons, List.takeWhile_cons]
        simpa using hrec

/-- Unfolding of julian_day_ut against a fixed engine response. -/
lemma julian_day_ut_eq (eng : Engine) (birth : BirthData) (rc : Int)
    (dret : ℚ × ℚ) (serr : List Int)
    (h : eng.utc_to_jd birth.year birth.month birth.day birth.hour birth.minute
        birth.second SE_GREG_CAL = (rc, dret, serr)) :
    julian_day_ut eng birth
      = if rc < 0 then
          Except.error (AstroError.EphemerisError (error_string serr))
        else Except.ok dret.2 := by
  simp only [julian_day_ut, h]

/-- Unfolding of body_longitude against a fixed engine response. -/
lemma body_longitude_eq (eng : Engine) (tjd_ut : ℚ) (ipl : Int) (rc : Int)
    (xx : Fin 6 → ℚ) (serr : List Int)
    (h : eng.calc_ut tjd_ut ipl SEFLG_SWIEPH = (rc, xx, serr)) :
    body_longitude eng tjd_ut ipl
      = if rc < 0 then
          Except.error (AstroError.EphemerisError (error_string serr))
        else Except.ok (xx 0) := by
  simp only [body_longitude, h]

/-- Unfolding of ascendant_longitude against a fixed engine response. -/
lemma ascendant_longitude_eq (eng : Engine) (tjd_ut lat lon : ℚ) (rc : Int)
    (cusps : Fin 13 → ℚ) (ascmc : Fin 10 → ℚ)
    (h : eng.houses_ex tjd_ut SEFLG_SWIEPH lat lon HSYS_PLACIDUS = (rc, cusps, ascmc)) :
    ascendant_longitude eng tjd_ut lat lon
      = if rc < 0 then
          Except.error (AstroError.EphemerisError (ErrText.lit "failed to compute ascendant"))
        else Except.ok (ascmc 0) := by
  simp only [ascendant_longitude, h]
  exact if_congr Iff.rfl rfl rfl

/-- A chart is returned only when all five pipeline steps succeeded, and it
is assembled exactly from the three sign mappings. -/
lemma calculate_ok_elim (eng : Engine) (st : PathState) (birth : BirthData)
    (chart : CoreChart) (h : calculate_core_chart eng st birth = Except.ok chart) :
    ∃ p tjd sun moon asc,
      apply_ephe_path st = Except.ok p ∧
      julian_day_ut eng birth = Except.ok tjd ∧
      body_longitude eng tjd SE_SUN = Except.ok sun ∧
      body_longitude eng tjd SE_MOON = Except.ok moon ∧
      ascendant_longitude eng tjd birth.lat birth.lon = Except.ok asc ∧
      chart = { sun_sign := sign_name_from_longitude sun,
                moon_sign := sign_name_from_longitude moon,
                asc_sign := sign_name_from_longitude asc } := by
  unfold calculate_core_chart at h
  rcases hA : apply_ephe_path st with e | p
  · simp [hA] at h
  simp only [hA] at h
  rcases hJ : julian_day_ut eng birth with e | tjd
  · simp [hJ] at h
  simp only [hJ] at h
  rcases hS : body_longitude eng tjd SE_SUN with e | sun
  · simp [hS] at h
  simp only [hS] at h
  rcases hM : body_longitude eng tjd SE_MOON with e | moon
  · simp [hM] at h
  simp only [hM] at h
  rcases hC : ascendant_longitude eng tjd birth.lat birth.lon with e | asc
  · simp [hC] at h
  simp only [hC, Except.ok.injEq] at h
  exact ⟨p, tjd, sun, moon, asc, rfl, rfl, hS, hM, hC, h.symm⟩

/-- When all five steps succeed the pipeline returns the fully assembled
chart and the trace lists the five engine calls in order. -/
lemma calculate_ok_intro (eng : Engine) (st : PathState) (birth : BirthData)
    (p : List Nat) (tjd sun moon asc : ℚ)
    (hA : apply_ephe_path st = Except.ok p)
    (hJ : julian_day_ut eng birth = Except.ok tjd)
    (hS : body_longitude eng tjd SE_SUN = Except.ok sun)
    (hM : body_longitude eng tjd SE_MOON = Except.ok moon)
    (hC : ascendant_longitude eng tjd birth.lat birth.lon = Except.ok asc) :
    calculate_core_chart eng st birth = Except.ok
      { sun_sign := sign_name_from_longitude sun,
        moon_sign := sign_name_from_longitude moon,
        asc_sign := sign_name_from_longitude asc } ∧
    (calculate_core_chart_trace eng st birth).2
      = [EngineCall.setEphePath p, EngineCall.utcToJd, EngineCall.calcUt SE_SUN,
         EngineCall.calcUt SE_MOON, EngineCall.housesEx] := by
  constructor
  · simp [calculate_core_chart, hA, hJ, hS, hM, hC]
  · simp [calculate_core_chart_trace, hA, hJ, hS, hM, hC]

/-- C2: for every longitude L in [0, 360), sign_name_from_longitude L is
the twelve-entry zodiac table at index floor(L / 30); in particular 0 and
29.999 map to aries, 30 to taurus and 359.999 to pisces. -/
theorem claim_C2_sign_table (L : ℚ) (h0 : 0 ≤ L) (h1 : L < 360) :
    sign_name_from_longitude L = ZODIAC_SIGNS.getD (⌊L / 30⌋).toNat "" ∧
    sign_name_from_longitude 0 = "aries" ∧
    sign_name_from_longitude 29.999 = "aries" ∧
    sign_name_from_longitude 30 = "taurus" ∧
    sign_name_from_longitude 359.999 = "pisces" :=
  ⟨sign_name_in_range L h0 h1, sign_name_zero, sign_name_29999,
   sign_name_30, sign_name_359999⟩

/-- Witness for C2 at the concrete longitude 45. -/
theorem claim_C2_witness :
    0 ≤ (45 : ℚ) ∧ (45 : ℚ) < 360 ∧
    sign_name_from_longitude 45 = ZODIAC_SIGNS.getD (⌊(45 : ℚ) / 30⌋).toNat "" :=
  ⟨by norm_num, by norm_num, (claim_C2_sign_table 45 (by norm_num) (by norm_num)).1⟩

/-- C3: the sign mapper is total over all rational longitudes and always
returns one of the twelve fixed sign names; consequently every chart
returned by calculate_core_chart has its sun, moon and ascendant sign
fields drawn from that twelve-value set. -/
theorem claim_C3_sign_total :
    (∀ L : ℚ, sign_name_from_longitude L ∈ ZODIAC_SIGNS) ∧
    (∀ (eng : Engine) (st : PathState) (birth : BirthData) (chart : CoreChart),
      calculate_core_chart eng st birth = Except.ok chart →
      chart.sun_sign ∈ ZODIAC_SIGNS ∧ chart.moon_sign ∈ ZODIAC_SIGNS ∧
        chart.asc_sign ∈ ZODIAC_SIGNS) := by
  refine ⟨sign_name_mem, ?_⟩
  intro eng st birth chart h
  obtain ⟨p, tjd, sun, moon, asc, _, _, _, _, _, hchart⟩ :=
    calculate_ok_elim eng st birth chart h
  subst hchart
  exact ⟨sign_name_mem _, sign_name_mem _, sign_name_mem _⟩

/-- Witness for C3 on a concrete successful pipeline run. -/
theorem claim_C3_witness :
    "aries" ∈ ZODIAC_SIGNS ∧ "aries" ∈ ZODIAC_SIGNS ∧ "aries" ∈ ZODIAC_SIGNS := by
  have h0 : calculate_core_chart engOk st0 birth0
      = Except.ok { sun_sign := sign_name_from_longitude 0,
                    moon_sign := sign_name_from_longitude 0,
                    asc_sign := sign_name_from_longitude 0 } := rfl
  rw [sign_name_zero] at h0
  exact claim_C3_sign_total.2 engOk st0 birth0 _ h0

/-- C4: the sign mapper is invariant under shifting by any whole number of
turns, and in particular -10 and 350 both map to pisces. -/
theorem claim_C4_sign_periodic :
    (∀ (L : ℚ) (k : ℤ),
      sign_name_from_longitude (L + 360 * k) = sign_name_from_longitude L) ∧
    sign_name_from_longitude (-10) = sign_name_from_longitude 350 ∧
    sign_name_from_longitude (-10) = "pisces" ∧
    sign_name_from_longitude 350 = "pisces" := by
  have hper : ∀ (L : ℚ) (k : ℤ),
      sign_name_from_longitude (L + 360 * k) = sign_name_from_longitude L := by
    intro L k
    rw [sign_name_eq_floorMod, sign_name_eq_floorMod, floorMod_add_int]
  have h1 := hper (-10) 1
  have harg : (-10 : ℚ) + 360 * ((1 : ℤ) : ℚ) = 350 := by push_cast; norm_num
  rw [harg] at h1
  refine ⟨hper, h1.symm, ?_, sign_name_350⟩
  rw [← h1]
  exact sign_name_350

/-- C5: julian_day_ut keeps only the Universal Time element, the second of
the dret pair of the engine's calendar-to-Julian-Day call, when the status
is non-negative, and returns the Ephemeris error built from the engine's
diagnostic buffer when the status is negative. -/
theorem claim_C5_julian_day (eng : Engine) (birth : BirthData) (rc : Int)
    (dret : ℚ × ℚ) (serr : List Int)
    (h : eng.utc_to_jd birth.year birth.month birth.day birth.hour birth.minute
        birth.second SE_GREG_CAL = (rc, dret, serr)) :
    (0 ≤ rc → julian_day_ut eng birth = Except.ok dret.2) ∧
    (rc < 0 → julian_day_ut eng birth
        = Except.error (AstroError.EphemerisError (error_string serr))) := by
  rw [julian_day_ut_eq eng birth rc dret serr h]
  constructor
  · intro h0; rw [if_neg (not_lt.mpr h0)]
  · intro h0; rw [if_pos h0]

/-- Witness for C5 on both a succeeding and a failing concrete engine. -/
theorem claim_C5_witness :
    julian_day_ut engOk birth0 = Except.ok 0 ∧
    julian_day_ut engFail birth0
      = Except.error (AstroError.EphemerisError (error_string [])) :=
  ⟨(claim_C5_julian_day engOk birth0 0 (0, 0) [] rfl).1 le_rfl,
   (claim_C5_julian_day engFail birth0 (-1) (0, 0) [] rfl).2 (by norm_num)⟩

/-- C6: ascendant_longitude returns exactly element 0 of the engine's ascmc
vector on success, discarding the cusps array, and on a negative status
returns the Ephemeris error with the fixed text regardless of input. -/
theorem claim_C6_ascendant (eng : Engine) (tjd_ut lat lon : ℚ) (rc : Int)
    (cusps : Fin 13 → ℚ) (ascmc : Fin 10 → ℚ)
    (h : eng.houses_ex tjd_ut SEFLG_SWIEPH lat lon HSYS_PLACIDUS = (rc, cusps, ascmc)) :
    (0 ≤ rc → ascendant_longitude eng tjd_ut lat lon = Except.ok (ascmc 0)) ∧
    (rc < 0 → ascendant_longitude eng tjd_ut lat lon
        = Except.error (AstroError.EphemerisError
            (ErrText.lit "failed to compute ascendant"))) := by
  rw [ascendant_longitude_eq eng tjd_ut lat lon rc cusps ascmc h]
  constructor
  · intro h0; rw [if_neg (not_lt.mpr h0)]
  · intro h0; rw [if_pos h0]

/-- Witness for C6 on both a succeeding and a failing concrete engine. -/
theorem claim_C6_witness :
    ascendant_longitude engOk 0 0 0 = Except.ok 0 ∧
    ascendant_longitude engFail 0 0 0
      = Except.error (AstroError.EphemerisError
          (ErrText.lit "failed to compute ascendant")) :=
  ⟨(claim_C6_ascendant engOk 0 0 0 0 (fun _ => 0) (fun _ => 0) rfl).1 le_rfl,
   (claim_C6_ascendant engFail 0 0 0 (-1) (fun _ => 0) (fun _ => 0) rfl).2 (by norm_num)⟩

/-- C7: when a failing time-conversion or position-query call leaves an
empty diagnostic buffer (no bytes before the first NUL), the error text is
the fixed placeholder; when the buffer is non-empty, the error text is the
buffer content up to the first NUL, lossily decoded; and those two wrappers
build their error from the buffer via error_string. -/
theorem claim_C7_error_string (buf : List Int) :
    (buf.takeWhile (fun c => !(c == 0)) = [] →
      error_string buf = ErrText.lit "unknown Swiss Ephemeris error") ∧
    (buf.takeWhile (fun c => !(c == 0)) ≠ [] →
      error_string buf = ErrText.lossyUtf8
        ((buf.takeWhile (fun c => !(c == 0))).map (fun c => (c % 256).toNat))) ∧
    (∀ (eng : Engine) (birth : BirthData) (rc : Int) (dret : ℚ × ℚ) (serr : List Int),
      eng.utc_to_jd birth.year birth.month birth.day birth.hour birth.minute
          birth.second SE_GREG_CAL = (rc, dret, serr) → rc < 0 →
      julian_day_ut eng birth
        = Except.error (AstroError.EphemerisError (error_string serr))) ∧
    (∀ (eng : Engine) (tjd_ut : ℚ) (ipl rc : Int) (xx : Fin 6 → ℚ) (serr : List Int),
      eng.calc_ut tjd_ut ipl SEFLG_SWIEPH = (rc, xx, serr) → rc < 0 →
      body_longitude eng tjd_ut ipl
        = Except.error (AstroError.EphemerisError (error_string serr))) := by
  have hts : buf.take ((buf.findIdx? (fun c => c == 0)).getD buf.length)
      = buf.takeWhile (fun c => !(c == 0)) :=
    take_findIdx_eq_takeWhile _ buf
  refine ⟨?_, ?_, ?_, ?_⟩
  · intro hempty
    simp only [error_string]
    rw [hts, hempty]
    simp
  · intro hne
    simp only [error_string]
    rw [hts]
    have h2 : ((buf.takeWhile (fun c => !(c == 0))).map
        (fun c => (c % 256).toNat)).isEmpty = false := by
      cases hcase : buf.takeWhile (fun c => !(c == 0)) with
      | nil => exact absurd hcase hne
      | cons a t => simp
    rw [h2]
    simp
  · intro eng birth rc dret serr h hneg
    rw [julian_day_ut_eq eng birth rc dret serr h, if_pos hneg]
  · intro eng tjd_ut ipl rc xx serr h hneg
    rw [body_longitude_eq eng tjd_ut ipl rc xx serr h, if_pos hneg]

/-- Witness for C7: empty buffer gives the placeholder, a non-empty buffer
gives its decoded prefix, and the two wrappers surface error_string. -/
theorem claim_C7_witness :
    error_string [] = ErrText.lit "unknown Swiss Ephemeris error" ∧
    error_string [104, 105, 0, 120] = ErrText.lossyUtf8 [104, 105] ∧
    julian_day_ut engFail birth0
      = Except.error (AstroError.EphemerisError (error_string [])) ∧
    body_longitude engFail 0 SE_SUN
      = Except.error (AstroError.EphemerisError (error_string [])) := by
  refine ⟨(claim_C7_error_string []).1 rfl, ?_, ?_, ?_⟩
  · have h := (claim_C7_error_string [104, 105, 0, 120]).2.1 (by decide)
    rw [h]
    decide
  · exact (claim_C7_error_string []).2.2.1 engFail birth0 (-1) (0, 0) [] rfl (by norm_num)
  · exact (claim_C7_error_string []).2.2.2 engFail 0 SE_SUN (-1) (fun _ => 0) [] rfl
      (by norm_num)

/-- C8: apply_ephe_path returns a recoverable InvalidInput error in exactly
two cases, a poisoned lock or a stored path with an interior NUL byte, and
succeeds otherwise; set_ephe_path on a path with an interior NUL byte fails
fatally (panics) instead of returning an error. -/
theorem claim_C8_apply_path (st : PathState) :
    (st.poisoned = true →
      apply_ephe_path st = Except.error
        (AstroError.InvalidInput (ErrText.lit "ephemeris path lock poisoned"))) ∧
    (st.poisoned = false → st.path.contains 0 = true →
      apply_ephe_path st = Except.error
        (AstroError.InvalidInput (ErrText.lit "ephemeris path contains null byte"))) ∧
    (st.poisoned = false → st.path.contains 0 = false →
      apply_ephe_path st = Except.ok st.path) ∧
    (∀ p : List Nat, st.poisoned = false → p.contains 0 = true →
      set_ephe_path st p = SetPathResult.panicked
        "ephemeris path must not contain interior null bytes"
        { path := p, poisoned := true }) := by
  refine ⟨?_, ?_, ?_, ?_⟩
  · intro h; simp [apply_ephe_path, h]
  · intro h1 h2
    simp only [apply_ephe_path, h1, h2]
    simp
  · intro h1 h2
    simp only [apply_ephe_path, h1, h2]
    simp
  · intro p h1 h2
    simp only [set_ephe_path, h1, h2]
    simp

/-- Witness for C8 at concrete registry states. -/
theorem claim_C8_witness :
    apply_ephe_path st0 = Except.ok [] ∧
    set_ephe_path st0 [0] = SetPathResult.panicked
      "ephemeris path must not contain interior null bytes"
      { path := [0], poisoned := true } :=
  ⟨(claim_C8_apply_path st0).2.2.1 rfl rfl,
   (claim_C8_apply_path st0).2.2.2 [0] rfl rfl⟩

/-- C10 counterexample: setting a NUL-containing path does store the invalid
value before the fatal failure, but the panic while the guard is held
poisons the mutex, so a subsequent apply returns the lock-poisoned error,
not the null-byte error, and a subsequent set_ephe_path with a perfectly
representable path itself fails fatally instead of recovering. -/
theorem claim_C10_cex :
    set_ephe_path { path := [97], poisoned := false } [0]
      = SetPathResult.panicked "ephemeris path must not contain interior null bytes"
          { path := [0], poisoned := true } ∧
    apply_ephe_path { path := [0], poisoned := true }
      = Except.error (AstroError.InvalidInput (ErrText.lit "ephemeris path lock poisoned")) ∧
    apply_ephe_path { path := [0], poisoned := true }
      ≠ Except.error (AstroError.InvalidInput (ErrText.lit "ephemeris path contains null byte")) ∧
    set_ephe_path { path := [0], poisoned := true } [97]
      = SetPathResult.panicked "ephemeris path mutex poisoned"
          { path := [0], poisoned := true } := by
  refine ⟨rfl, rfl, ?_, rfl⟩
  intro hcontra
  have h2 : AstroError.InvalidInput (ErrText.lit "ephemeris path lock poisoned")
      = AstroError.InvalidInput (ErrText.lit "ephemeris path contains null byte") :=
    Except.error.inj hcontra
  exact absurd (ErrText.lit.inj (AstroError.InvalidInput.inj h2)) (by decide)

/-- C10 amended: set_ephe_path stores the path before the representability
check, so the stored path is already the invalid value at the point of the
fatal failure; the panic poisons the mutex, hence every subsequent apply
returns the lock-poisoned ConfigError and every subsequent set_ephe_path
call fails fatally on the poisoned lock, with no recovery path. -/
theorem claim_C10_amended (st : PathState) (p : List Nat)
    (hst : st.poisoned = false) (hp : p.contains 0 = true) :
    set_ephe_path st p = SetPathResult.panicked
      "ephemeris path must not contain interior null bytes"
      { path := p, poisoned := true } ∧
    apply_ephe_path { path := p, poisoned := true }
      = Except.error (AstroError.InvalidInput (ErrText.lit "ephemeris path lock poisoned")) ∧
    (∀ q : List Nat, set_ephe_path { path := p, poisoned := true } q
      = SetPathResult.panicked "ephemeris path mutex poisoned"
          { path := p, poisoned := true }) := by
  refine ⟨?_, ?_, ?_⟩
  · simp only [set_ephe_path, hst, hp]
    simp
  · simp [apply_ephe_path]
  · intro q; simp [set_ephe_path]

/-- Witness for the amended C10 at a concrete state and path. -/
theorem claim_C10_witness :
    set_ephe_path { path := [], poisoned := false } [0] = SetPathResult.panicked
      "ephemeris path must not contain interior null bytes"
      { path := [0], poisoned := true } :=
  (claim_C10_amended { path := [], poisoned := false } [0] rfl rfl).1

/-- C1: the chart pipeline performs apply-path, time conversion, Sun query,
Moon query, ascendant query and the three sign mappings in that fixed
order, short-circuits with the error of the first failing step without
issuing the later engine calls, and returns a chart only when every step
succeeded, fully assembled from the three sign mappings. -/
theorem claim_C1_pipeline (eng : Engine) (st : PathState) (birth : BirthData) :
    (calculate_core_chart_trace eng st birth).1 = calculate_core_chart eng st birth ∧
    (∀ e, apply_ephe_path st = Except.error e →
      calculate_core_chart eng st birth = Except.error e ∧
      (calculate_core_chart_trace eng st birth).2 = []) ∧
    (∀ p e, apply_ephe_path st = Except.ok p →
      julian_day_ut eng birth = Except.error e →
      calculate_core_chart eng st birth = Except.error e ∧
      (calculate_core_chart_trace eng st birth).2
        = [EngineCall.setEphePath p, EngineCall.utcToJd]) ∧
    (∀ p tjd e, apply_ephe_path st = Except.ok p →
      julian_day_ut eng birth = Except.ok tjd →
      body_longitude eng tjd SE_SUN = Except.error e →
      calculate_core_chart eng st birth = Except.error e ∧
      (calculate_core_chart_trace eng st birth).2
        = [EngineCall.setEphePath p, EngineCall.utcToJd, EngineCall.calcUt SE_SUN]) ∧
    (∀ p tjd sun e, apply_ephe_path st = Except.ok p →
      julian_day_ut eng birth = Except.ok tjd →
      body_longitude eng tjd SE_SUN = Except.ok sun →
      body_longitude eng tjd SE_MOON = Except.error e →
      calculate_core_chart eng st birth = Except.error e ∧
      (calculate_core_chart_trace eng st birth).2
        = [EngineCall.setEphePath p, EngineCall.utcToJd, EngineCall.calcUt SE_SUN,
           EngineCall.calcUt SE_MOON]) ∧
    (∀ p tjd sun moon e, apply_ephe_path st = Except.ok p →
      julian_day_ut eng birth = Except.ok tjd →
      body_longitude eng tjd SE_SUN = Except.ok sun →
      body_longitude eng tjd SE_MOON = Except.ok moon →
      ascendant_longitude eng tjd birth.lat birth.lon = Except.error e →
      calculate_core_chart eng st birth = Except.error e ∧
      (calculate_core_chart_trace eng st birth).2
        = [EngineCall.setEphePath p, EngineCall.utcToJd, EngineCall.calcUt SE_SUN,
           EngineCall.calcUt SE_MOON, EngineCall.housesEx]) ∧
    (∀ p tjd sun moon asc, apply_ephe_path st = Except.ok p →
      julian_day_ut eng birth = Except.ok tjd →
      body_longitude eng tjd SE_SUN = Except.ok sun →
      body_longitude eng tjd SE_MOON = Except.ok moon →
      ascendant_longitude eng tjd birth.lat birth.lon = Except.ok asc →
      calculate_core_chart eng st birth = Except.ok
        { sun_sign := sign_name_from_longitude sun,
          moon_sign := sign_name_from_longitude moon,
          asc_sign := sign_name_from_longitude asc } ∧
      (calculate_core_chart_trace eng st birth).2
        = [EngineCall.setEphePath p, EngineCall.utcToJd, EngineCall.calcUt SE_SUN,
           EngineCall.calcUt SE_MOON, EngineCall.housesEx]) ∧
    (∀ chart, calculate_core_chart eng st birth = Except.ok chart →
      ∃ p tjd sun moon asc,
        apply_ephe_path st = Except.ok p ∧
        julian_day_ut eng birth = Except.ok tjd ∧
        body_longitude eng tjd SE_SUN = Except.ok sun ∧
        body_longitude eng tjd SE_MOON = Except.ok moon ∧
        ascendant_longitude eng tjd birth.lat birth.lon = Except.ok asc ∧
        chart = { sun_sign := sign_name_from_longitude sun,
                  moon_sign := sign_name_from_longitude moon,
                  asc_sign := sign_name_from_longitude asc }) := by
  refine ⟨?_, ?_, ?_, ?_, ?_, ?_, ?_, ?_⟩
  · rcases hA : apply_ephe_path st with e | p
    · simp [calculate_core_chart, calculate_core_chart_trace, hA]
    · rcases hJ : julian_day_ut eng birth with e | tjd
      · simp [calculate_core_chart, calculate_core_chart_trace, hA, hJ]
      · rcases hS : body_longitude eng tjd SE_SUN with e | sun
        · simp [calculate_core_chart, calculate_core_chart_trace, hA, hJ, hS]
        · rcases hM : body_longitude eng tjd SE_MOON with e | moon
          · simp [calculate_core_chart, calculate_core_chart_trace, hA, hJ, hS, hM]
          · rcases hC : ascendant_longitude eng tjd birth.lat birth.lon with e | asc
            · simp [calculate_core_chart, calculate_core_chart_trace, hA, hJ, hS, hM, hC]
            · simp [calculate_core_chart, calculate_core_chart_trace, hA, hJ, hS, hM, hC]
  · intro e hA
    constructor
    · simp [calculate_core_chart, hA]
    · simp [calculate_core_chart_trace, hA]
  · intro p e hA hJ
    constructor
    · simp [calculate_core_chart, hA, hJ]
    · simp [calculate_core_chart_trace, hA, hJ]
  · intro p tjd e hA hJ hS
    constructor
    · simp [calculate_core_chart, hA, hJ, hS]
    · simp [calculate_core_chart_trace, hA, hJ, hS]
  · intro p tjd sun e hA hJ hS hM
    constructor
    · simp [calculate_core_chart, hA, hJ, hS, hM]
    · simp [calculate_core_chart_trace, hA, hJ, hS, hM]
  · intro p tjd sun moon e hA hJ hS hM hC
    constructor
    · simp [calculate_core_chart, hA, hJ, hS, hM, hC]
    · simp [calculate_core_chart_trace, hA, hJ, hS, hM, hC]
  · intro p tjd sun moon asc hA hJ hS hM hC
    exact calculate_ok_intro eng st birth p tjd sun moon asc hA hJ hS hM hC
  · intro chart h
    exact calculate_ok_elim eng st birth chart h

/-- Witness for C1 on a concrete fully successful run. -/
theorem claim_C1_witness :
    calculate_core_chart engOk st0 birth0
      = Except.ok { sun_sign := sign_name_from_longitude 0,
                    moon_sign := sign_name_from_longitude 0,
                    asc_sign := sign_name_from_longitude 0 } ∧
    (calculate_core_chart_trace engOk st0 birth0).2
      = [EngineCall.setEphePath [], EngineCall.utcToJd, EngineCall.calcUt SE_SUN,
         EngineCall.calcUt SE_MOON, EngineCall.housesEx] :=
  (claim_C1_pipeline engOk st0 birth0).2.2.2.2.2.2.1 [] 0 0 0 0 rfl rfl rfl rfl rfl

end AstroCore
